import Mathlib

/-!
Shallow embedding of the `heartbeat` Go package (cdzombak/heartbeat).

Time model: Go timestamps and durations are modelled as `Int` nanoseconds
(the zero value of a Go timestamp is `0`; a Go duration is an `int64`
nanosecond count).  `time.Since(t)` at wall-clock instant `now` is
`now - t`, and `t.Before(u)` is `t < u`.

Background tasks: launching a ticker goroutine or an HTTP listener is
modelled by ghost counters (`pushSchedules`, `listeners`) on the monitor
state, so that "launched exactly once" is a statement about the counters.

The HTTP transport and JSON decoding are external collaborators; a tick
receives a `FetchResult` describing the outcome of `client.Get`: either a
transport error, or a response carrying a status code, a status text and a
body.  The body is `none` when `io.ReadAll` fails, `some none` when the
bytes do not unmarshal as the acknowledgement shape, and `some (some r)`
when they unmarshal into `r`.
-/

namespace Heartbeat

/-- `time.Second` in nanoseconds: a Go duration is an `Int` of nanoseconds
here, and a Go timestamp an `Int` of nanoseconds relative to the zero
time. -/
def timeSecond : Int := 1000000000

/-- Embeds the `Config` struct.  `hasOnError` records whether the optional
`OnError` callback is non-nil. -/
structure Config where
  heartbeatInterval : Int
  livenessThreshold : Int
  heartbeatURL : String
  httpTimeout : Int
  port : Int
  hasOnError : Bool
deriving Repr, DecidableEq

/-- Embeds the `heartbeat` struct.  `clientTimeout` is the `Timeout` of the
`http.Client` built at construction.  `pushSchedules` and `listeners` are
ghost counters of background tasks launched by `Start`. -/
structure heartbeat where
  heartbeatInterval : Int
  livenessThreshold : Int
  heartbeatURL : String
  lastAlive : Int
  clientTimeout : Int
  hasOnError : Bool
  started : Bool
  serverPort : Int
  pushSchedules : Nat
  listeners : Nat
deriving Repr, DecidableEq

/-- Embeds `NewHeartbeat` (the variant with `HTTPTimeout` and `Port`):
validates the config in source order and computes the effective client
timeout. -/
def NewHeartbeat (cfg : Config) : Except String heartbeat :=
  if cfg.livenessThreshold ≤ 0 then
    .error "liveness threshold must be positive"
  else if cfg.heartbeatInterval ≤ 0 then
    .error "heartbeat interval must be positive"
  else if cfg.httpTimeout ≠ 0 ∧ cfg.httpTimeout ≥ cfg.heartbeatInterval then
    .error "timeout must be less than heartbeat interval"
  else if cfg.port < 0 ∨ cfg.port > 65535 then
    .error "port must be in the range [0, 65535]"
  else if cfg.heartbeatURL = "" ∧ cfg.port = 0 then
    .error "heartbeat URL must be set"
  else
    let timeout :=
      if cfg.httpTimeout = 0 then
        let t := cfg.heartbeatInterval - timeSecond
        if t < timeSecond then timeSecond else t
      else cfg.httpTimeout
    .ok {
      heartbeatInterval := cfg.heartbeatInterval
      livenessThreshold := cfg.livenessThreshold
      heartbeatURL := cfg.heartbeatURL
      lastAlive := 0
      clientTimeout := timeout
      hasOnError := cfg.hasOnError
      started := false
      serverPort := cfg.port
      pushSchedules := 0
      listeners := 0 }

/-- Embeds `heartbeat.Alive`: under the lock, advance `lastAlive` if the
reported time is newer (`h.lastAlive.Before(at)`). -/
def Alive (h : heartbeat) (t : Int) : heartbeat :=
  if h.lastAlive < t then { h with lastAlive := t } else h

/-- A sequence of `Alive` calls, in order. -/
def aliveSeq (h : heartbeat) (ts : List Int) : heartbeat :=
  ts.foldl Alive h

/-- Embeds `heartbeat.okUnlocked` at wall-clock instant `now`:
`time.Since(h.lastAlive) < h.livenessThreshold`. -/
def okUnlocked (h : heartbeat) (now : Int) : Bool :=
  decide (now - h.lastAlive < h.livenessThreshold)

/-- Embeds `startHeartbeatLocked`: launches the push ticker goroutine only
when a heartbeat URL is configured. -/
def startHeartbeatLocked (h : heartbeat) : heartbeat :=
  if h.heartbeatURL = "" then h
  else { h with pushSchedules := h.pushSchedules + 1 }

/-- Embeds `startHttpServerLocked`: launches the health listener only when a
server port is configured. -/
def startHttpServerLocked (h : heartbeat) : heartbeat :=
  if h.serverPort = 0 then h
  else { h with listeners := h.listeners + 1 }

/-- Embeds `heartbeat.Start`: under the lock, a no-op when already started;
otherwise set `started` and launch the configured background tasks. -/
def Start (h : heartbeat) : heartbeat :=
  if h.started then h
  else startHttpServerLocked (startHeartbeatLocked { h with started := true })

/-- Embeds the `uptimeKumaPushResp` acknowledgement struct. -/
structure uptimeKumaPushResp where
  OK : Bool
  Msg : String
deriving Repr, DecidableEq

/-- Outcome of `h.client.Get(h.heartbeatURL)` on one tick.  The body field
is `none` when reading the body fails, `some none` when the bytes fail to
unmarshal, `some (some r)` when they unmarshal into `r`. -/
inductive FetchResult where
  | transportError (detail : String)
  | response (statusCode : Int) (status : String)
      (body : Option (Option uptimeKumaPushResp))
deriving Repr, DecidableEq

/-- Observable effects of one push tick: whether an outbound request was
issued, and the errors handed to the `onError` callback (each list element
is one asynchronous `go h.onError(err)` dispatch). -/
structure TickOutcome where
  requestIssued : Bool
  errors : List String
deriving Repr, DecidableEq

/-- One `go h.onError(err)` dispatch: a no-op when the callback is nil. -/
def emitError (h : heartbeat) (e : String) : List String :=
  if h.hasOnError then [e] else []

/-- The error text built by the tick loop, `fmt.Errorf` with the URL and a
detail; the detail appears at the end of the message. -/
def pushFailMsg (h : heartbeat) (detail : String) : String :=
  "heartbeat to " ++ h.heartbeatURL ++ " failed: " ++ detail

/-- Embeds one iteration of the ticker loop in `startHeartbeatLocked`
(src/send.go): skip when not alive; classify transport errors, non-2xx
statuses, body-read errors, unmarshal failures and negative
acknowledgements exactly as the source does. -/
def runTick (h : heartbeat) (now : Int) (fetch : FetchResult) : TickOutcome :=
  if okUnlocked h now = false then
    { requestIssued := false, errors := [] }
  else
    match fetch with
    | .transportError detail =>
        { requestIssued := true, errors := emitError h (pushFailMsg h detail) }
    | .response code status body =>
        if code < 200 ∨ code > 299 then
          { requestIssued := true, errors := emitError h (pushFailMsg h status) }
        else
          match body with
          | none => { requestIssued := true, errors := [] }
          | some none => { requestIssued := true, errors := [] }
          | some (some r) =>
              if r.OK then { requestIssued := true, errors := [] }
              else
                { requestIssued := true
                  errors := emitError h (pushFailMsg h r.Msg) }

/-- An HTTP response of the health endpoint. -/
structure HttpResponse where
  status : Int
  body : String
deriving Repr, DecidableEq

/-- Embeds the handler registered on pattern `/` in
`startHttpServerLocked`: the path is ignored (the root pattern matches
every path); non-GET methods get 405 via `http.Error`; otherwise the
current liveness judgment picks 200 or 503. -/
def handleHealthRequest (h : heartbeat) (now : Int) (method : String)
    (_path : String) : HttpResponse :=
  if method ≠ "GET" then
    { status := 405, body := "Method Not Allowed\n" }
  else if okUnlocked h now then
    { status := 200, body := "\x7b\"ok\":true\x7d" }
  else
    { status := 503, body := "\x7b\"ok\":false\x7d" }

/-! Sample values used by the witnesses. -/

/-- A concrete valid configuration: 5s interval, 60s threshold, both a push
URL and a port, default timeout, callback installed. -/
def sampleCfg : Config where
  heartbeatInterval := 5000000000
  livenessThreshold := 60000000000
  heartbeatURL := "https://example.com/push"
  httpTimeout := 0
  port := 8080
  hasOnError := true

/-- The monitor `NewHeartbeat` builds from `sampleCfg`. -/
def sampleMon : heartbeat where
  heartbeatInterval := 5000000000
  livenessThreshold := 60000000000
  heartbeatURL := "https://example.com/push"
  lastAlive := 0
  clientTimeout := 4000000000
  hasOnError := true
  started := false
  serverPort := 8080
  pushSchedules := 0
  listeners := 0

/-- A configuration with no push URL and no port, used as the C6 witness
input. -/
def emptyTargetCfg : Config where
  heartbeatInterval := 5000000000
  livenessThreshold := 60000000000
  heartbeatURL := ""
  httpTimeout := 0
  port := 0
  hasOnError := false

/-- A configuration whose `httpTimeout` equals its `heartbeatInterval`,
used as the C7 witness input. -/
def badTimeoutCfg : Config where
  heartbeatInterval := 5000000000
  livenessThreshold := 60000000000
  heartbeatURL := "https://example.com/push"
  httpTimeout := 5000000000
  port := 0
  hasOnError := false

/-! Helper lemmas. -/

theorem alive_lastAlive (h : heartbeat) (t : Int) :
    (Alive h t).lastAlive = max h.lastAlive t := by
  unfold Alive
  split
  · next hlt => simp [max_eq_right (le_of_lt hlt)]
  · next hge => simp [max_eq_left (not_lt.mp hge)]

theorem aliveSeq_lastAlive (ts : List Int) : ∀ h : heartbeat,
    (aliveSeq h ts).lastAlive = ts.foldl max h.lastAlive := by
  induction ts with
  | nil => intro h; rfl
  | cons t ts ih =>
      intro h
      show (aliveSeq (Alive h t) ts).lastAlive = _
      rw [ih, alive_lastAlive]
      rfl

theorem foldl_max_perm {ts us : List Int} (p : ts.Perm us) :
    ∀ a : Int, ts.foldl max a = us.foldl max a := by
  induction p with
  | nil => intro a; rfl
  | cons x _ ih => intro a; simpa using ih (max a x)
  | swap x y l => intro a; simp only [List.foldl_cons]; rw [sup_right_comm]
  | trans _ _ ih1 ih2 => intro a; rw [ih1 a, ih2 a]

theorem le_foldl_max (ts : List Int) : ∀ a : Int, a ≤ ts.foldl max a := by
  induction ts with
  | nil => intro a; exact le_refl a
  | cons t ts ih => intro a; exact le_trans (le_max_left a t) (ih (max a t))

theorem mem_le_foldl_max (ts : List Int) :
    ∀ (a x : Int), x ∈ ts → x ≤ ts.foldl max a := by
  induction ts with
  | nil => intro a x hx; cases hx
  | cons t ts ih =>
      intro a x hx
      cases hx with
      | head => exact le_trans (le_max_right a t) (le_foldl_max ts (max a t))
      | tail _ hmem => exact ih (max a t) x hmem

theorem foldl_max_mem (ts : List Int) : ∀ a : Int, ts.foldl max a ∈ a :: ts := by
  induction ts with
  | nil => intro a; exact List.mem_singleton.mpr rfl
  | cons t ts ih =>
      intro a
      simp only [List.foldl_cons]
      rcases List.mem_cons.mp (ih (max a t)) with hm | hm
      · rcases max_choice a t with hc | hc
        · exact List.mem_cons.mpr (Or.inl (hm.trans hc))
        · exact List.mem_cons.mpr
            (Or.inr (List.mem_cons.mpr (Or.inl (hm.trans hc))))
      · exact List.mem_cons.mpr (Or.inr (List.mem_cons.mpr (Or.inr hm)))

/-! Claims C1 to C5 and C10. -/

/-- C1: each `Alive(at)` call sets `lastAlive = max(lastAlive, at)`, never
decreases it, and for every sequence of `Alive` calls — in any order — the
stored `lastAlive` afterwards is the maximum of the initial value and all
reported timestamps; for a nonempty sequence of timestamps no older than
the initial value, it is exactly `max(t1, …, tn)`. -/
theorem C1_alive_max_semantics (h : heartbeat) (t : Int) (ts us : List Int)
    (hperm : ts.Perm us) :
    (Alive h t).lastAlive = max h.lastAlive t ∧
    h.lastAlive ≤ (Alive h t).lastAlive ∧
    (aliveSeq h ts).lastAlive = ts.foldl max h.lastAlive ∧
    (aliveSeq h ts).lastAlive = (aliveSeq h us).lastAlive ∧
    (ts ≠ [] → (∀ x ∈ ts, h.lastAlive ≤ x) →
      (aliveSeq h ts).lastAlive ∈ ts ∧
      ∀ x ∈ ts, x ≤ (aliveSeq h ts).lastAlive) := by
  refine ⟨alive_lastAlive h t, ?_, aliveSeq_lastAlive ts h, ?_, ?_⟩
  · rw [alive_lastAlive]; exact le_max_left _ _
  · rw [aliveSeq_lastAlive, aliveSeq_lastAlive, foldl_max_perm hperm]
  · intro hne hb
    refine ⟨?_, ?_⟩
    · rw [aliveSeq_lastAlive]
      rcases List.mem_cons.mp (foldl_max_mem ts h.lastAlive) with hm | hm
      · cases ts with
        | nil => exact absurd rfl hne
        | cons t0 ts2 =>
            have h1 : h.lastAlive ≤ t0 := hb t0 (List.mem_cons_self _ _)
            have h2 : t0 ≤ List.foldl max h.lastAlive (t0 :: ts2) :=
              mem_le_foldl_max _ _ _ (List.mem_cons_self _ _)
            have h3 : List.foldl max h.lastAlive (t0 :: ts2) = t0 :=
              le_antisymm (hm.le.trans h1) h2
            rw [h3]
            exact List.mem_cons_self _ _
      · exact hm
    · intro x hx
      rw [aliveSeq_lastAlive]
      exact mem_le_foldl_max ts h.lastAlive x hx

/-- Witness for C1 at concrete inputs. -/
theorem C1_witness :
    (Alive sampleMon 5).lastAlive = max sampleMon.lastAlive 5 ∧
    (aliveSeq sampleMon [3, 1]).lastAlive =
      (aliveSeq sampleMon [1, 3]).lastAlive := by
  have hmain := C1_alive_max_semantics sampleMon 5 [3, 1] [1, 3] (by decide)
  exact ⟨hmain.1, hmain.2.2.2.1⟩

/-- C2: the liveness predicate is `now - lastAlive < livenessThreshold`,
recomputed against the clock on every read; with a last report at `T` and
threshold `D`, every query in `[T, T + D)` is alive and every query at or
after `T + D` is not. -/
theorem C2_liveness_window (h : heartbeat) (T D q : Int)
    (hT : h.lastAlive = T) (hD : h.livenessThreshold = D) :
    (okUnlocked h q = true ↔ q - T < D) ∧
    (T ≤ q → q < T + D → okUnlocked h q = true) ∧
    (T + D ≤ q → okUnlocked h q = false) := by
  have hiff : okUnlocked h q = true ↔ q - T < D := by
    simp [okUnlocked, hT, hD]
  refine ⟨hiff, ?_, ?_⟩
  · intro _ h2
    exact hiff.mpr (by omega)
  · intro hge
    simp only [okUnlocked, hT, hD, decide_eq_false_iff_not]
    omega

/-- Witness for C2 at concrete inputs: threshold 60s, report at 0,
queries inside and at the edge of the window. -/
theorem C2_witness :
    okUnlocked sampleMon 59999999999 = true ∧
    okUnlocked sampleMon 60000000000 = false :=
  ⟨(C2_liveness_window sampleMon 0 60000000000 59999999999 rfl rfl).2.1
      (by decide) (by decide),
   (C2_liveness_window sampleMon 0 60000000000 60000000000 rfl rfl).2.2
      (by decide)⟩

/-- C3: on a push tick with a 2xx response, a body parsing as the
acknowledgement shape with `ok = false` fires the error callback exactly
once with a message containing the acknowledgement message; `ok = true` or
an unparseable body fires no callback. -/
theorem C3_ack_classification (h : heartbeat) (now : Int) (code : Int)
    (st : String) (r : uptimeKumaPushResp)
    (halive : okUnlocked h now = true) (hcb : h.hasOnError = true)
    (hlo : 200 ≤ code) (hhi : code ≤ 299) :
    (r.OK = false →
      ∃ s, (runTick h now (.response code st (some (some r)))).errors = [s] ∧
        ∃ pre post, s.data = pre ++ r.Msg.data ++ post) ∧
    (r.OK = true →
      (runTick h now (.response code st (some (some r)))).errors = []) ∧
    (runTick h now (.response code st (some none))).errors = [] := by
  have hcode : ¬(code < 200 ∨ code > 299) := by omega
  refine ⟨?_, ?_, ?_⟩
  · intro hok
    refine ⟨pushFailMsg h r.Msg, ?_, ?_⟩
    · simp [runTick, halive, hcode, hok, emitError, hcb]
    · refine ⟨("heartbeat to " ++ h.heartbeatURL ++ " failed: ").data, [], ?_⟩
      simp [pushFailMsg, String.data_append]
  · intro hok
    simp [runTick, halive, hcode, hok]
  · simp [runTick, halive, hcode]

/-- Witness for C3 at concrete inputs: a 200 response whose body is
`ok = false` with message `bad`, one whose body is `ok = true`, and one
whose body does not parse. -/
theorem C3_witness :
    (runTick sampleMon 100
        (.response 200 "200 OK" (some (some ⟨false, "bad"⟩)))).errors =
      [pushFailMsg sampleMon "bad"] ∧
    (runTick sampleMon 100
        (.response 200 "200 OK" (some (some ⟨true, ""⟩)))).errors = [] ∧
    (runTick sampleMon 100 (.response 200 "200 OK" (some none))).errors = [] := by
  have h1 := C3_ack_classification sampleMon 100 200 "200 OK" ⟨false, "bad"⟩
    (by decide) rfl (by decide) (by decide)
  have h2 := C3_ack_classification sampleMon 100 200 "200 OK" ⟨true, ""⟩
    (by decide) rfl (by decide) (by decide)
  refine ⟨?_, h2.2.1 rfl, h2.2.2⟩
  obtain ⟨s, hs, -⟩ := h1.1 rfl
  rw [hs]
  have : s = pushFailMsg sampleMon "bad" := by
    have := hs
    simp [runTick, emitError, sampleMon, okUnlocked] at this
    exact this.symm
  rw [this]

/-- C4: on a tick at which the liveness predicate is false, no outbound
request is issued and no error is raised; the tick is skipped entirely. -/
theorem C4_skip_when_dead (h : heartbeat) (now : Int) (fetch : FetchResult)
    (hdead : okUnlocked h now = false) :
    runTick h now fetch = { requestIssued := false, errors := [] } := by
  simp [runTick, hdead]

/-- Witness for C4: the sample monitor with no report is not alive 100s in,
so the tick issues nothing. -/
theorem C4_witness :
    runTick sampleMon 100000000000 (.transportError "connection refused") =
      { requestIssued := false, errors := [] } :=
  C4_skip_when_dead sampleMon 100000000000
    (.transportError "connection refused") (by decide)

/-- C10: on a tick with a 2xx response whose body cannot be read, the tick
is treated as success: no error callback, loop proceeds (a request was
issued, no error emitted). -/
theorem C10_body_read_error_is_success (h : heartbeat) (now : Int)
    (code : Int) (st : String)
    (halive : okUnlocked h now = true) (hlo : 200 ≤ code) (hhi : code ≤ 299) :
    runTick h now (.response code st none) =
      { requestIssued := true, errors := [] } := by
  have hcode : ¬(code < 200 ∨ code > 299) := by omega
  simp [runTick, halive, hcode]

/-- Witness for C10 at a concrete 204 response with an unreadable body. -/
theorem C10_witness :
    runTick sampleMon 100 (.response 204 "204 No Content" none) =
      { requestIssued := true, errors := [] } :=
  C10_body_read_error_is_success sampleMon 100 204 "204 No Content"
    (by decide) (by decide) (by decide)

/-- C5: a non-GET request to the health endpoint gets 405 without reading
the liveness state (the answer is independent of the state and the clock);
a GET on any path gets 200 with body `{"ok":true}` when the liveness
predicate holds and 503 with body `{"ok":false}` when it does not. -/
theorem C5_health_endpoint (h h2 : heartbeat) (now now2 : Int)
    (m p p2 : String) :
    (m ≠ "GET" →
      (handleHealthRequest h now m p).status = 405 ∧
      handleHealthRequest h now m p = handleHealthRequest h2 now2 m p2) ∧
    (okUnlocked h now = true →
      handleHealthRequest h now "GET" p =
        { status := 200, body := "\x7b\"ok\":true\x7d" }) ∧
    (okUnlocked h now = false →
      handleHealthRequest h now "GET" p =
        { status := 503, body := "\x7b\"ok\":false\x7d" }) := by
  refine ⟨?_, ?_, ?_⟩
  · intro hm
    constructor <;> simp [handleHealthRequest, hm]
  · intro hok
    simp [handleHealthRequest, hok]
  · intro hok
    simp [handleHealthRequest, hok]

/-- Witness for C5: a POST gets 405; a GET right after a report gets 200;
a GET with no report within the threshold gets 503. -/
theorem C5_witness :
    (handleHealthRequest sampleMon 100 "POST" "/health").status = 405 ∧
    handleHealthRequest sampleMon 100 "GET" "/" =
      { status := 200, body := "\x7b\"ok\":true\x7d" } ∧
    handleHealthRequest sampleMon 100000000000 "GET" "/" =
      { status := 503, body := "\x7b\"ok\":false\x7d" } :=
  ⟨((C5_health_endpoint sampleMon sampleMon 100 100 "POST" "/health"
        "/health").1 (by decide)).1,
   (C5_health_endpoint sampleMon sampleMon 100 100 "GET" "/" "/").2.1
      (by decide),
   (C5_health_endpoint sampleMon sampleMon 100000000000 100000000000 "GET"
        "/" "/").2.2 (by decide)⟩

/-! Construction and start helpers. -/

/-- Fields of a successfully constructed monitor, read off the `.ok`
branch of `NewHeartbeat`. -/
theorem newHeartbeat_fields (cfg : Config) (h : heartbeat)
    (hok : NewHeartbeat cfg = .ok h) :
    h.heartbeatURL = cfg.heartbeatURL ∧ h.serverPort = cfg.port ∧
    h.started = false ∧ h.pushSchedules = 0 ∧ h.listeners = 0 ∧
    h.lastAlive = 0 ∧
    h.clientTimeout =
      (if cfg.httpTimeout = 0 then
        (if cfg.heartbeatInterval - timeSecond < timeSecond then timeSecond
         else cfg.heartbeatInterval - timeSecond)
       else cfg.httpTimeout) := by
  unfold NewHeartbeat at hok
  split at hok
  · exact Except.noConfusion hok
  split at hok
  · exact Except.noConfusion hok
  split at hok
  · exact Except.noConfusion hok
  split at hok
  · exact Except.noConfusion hok
  split at hok
  · exact Except.noConfusion hok
  simp only [Except.ok.injEq] at hok
  subst hok
  exact ⟨rfl, rfl, rfl, rfl, rfl, rfl, rfl⟩

theorem startHeartbeatLocked_started (h : heartbeat) :
    (startHeartbeatLocked h).started = h.started := by
  unfold startHeartbeatLocked; split <;> rfl

theorem startHeartbeatLocked_listeners (h : heartbeat) :
    (startHeartbeatLocked h).listeners = h.listeners := by
  unfold startHeartbeatLocked; split <;> rfl

theorem startHeartbeatLocked_serverPort (h : heartbeat) :
    (startHeartbeatLocked h).serverPort = h.serverPort := by
  unfold startHeartbeatLocked; split <;> rfl

theorem startHeartbeatLocked_pushSchedules (h : heartbeat) :
    (startHeartbeatLocked h).pushSchedules =
      (if h.heartbeatURL = "" then h.pushSchedules
       else h.pushSchedules + 1) := by
  unfold startHeartbeatLocked
  split <;> simp [*]

theorem startHttpServerLocked_started (h : heartbeat) :
    (startHttpServerLocked h).started = h.started := by
  unfold startHttpServerLocked; split <;> rfl

theorem startHttpServerLocked_pushSchedules (h : heartbeat) :
    (startHttpServerLocked h).pushSchedules = h.pushSchedules := by
  unfold startHttpServerLocked; split <;> rfl

theorem startHttpServerLocked_listeners (h : heartbeat) :
    (startHttpServerLocked h).listeners =
      (if h.serverPort = 0 then h.listeners else h.listeners + 1) := by
  unfold startHttpServerLocked
  split <;> simp [*]

theorem start_started (s : heartbeat) : (Start s).started = true := by
  unfold Start
  split
  · next hs => exact hs
  · rw [startHttpServerLocked_started, startHeartbeatLocked_started]

theorem start_of_started (s : heartbeat) (hs : s.started = true) :
    Start s = s := by
  unfold Start
  rw [hs]
  simp

theorem start_pushSchedules (s : heartbeat) (hs : s.started = false) :
    (Start s).pushSchedules =
      (if s.heartbeatURL = "" then s.pushSchedules
       else s.pushSchedules + 1) := by
  unfold Start
  rw [hs]
  simp only [Bool.false_eq_true, if_false, startHttpServerLocked_pushSchedules,
    startHeartbeatLocked_pushSchedules]

theorem start_listeners (s : heartbeat) (hs : s.started = false) :
    (Start s).listeners =
      (if s.serverPort = 0 then s.listeners else s.listeners + 1) := by
  unfold Start
  rw [hs]
  simp only [Bool.false_eq_true, if_false, startHttpServerLocked_listeners,
    startHeartbeatLocked_serverPort, startHeartbeatLocked_listeners]

/-! Claims C6 to C9. -/

/-- C6: a configuration with neither a push URL nor a server port always
fails construction with an error; no monitor value is produced. -/
theorem C6_no_target_is_error (cfg : Config)
    (hurl : cfg.heartbeatURL = "") (hport : cfg.port = 0) :
    ∃ e, NewHeartbeat cfg = .error e := by
  unfold NewHeartbeat
  split
  · exact ⟨_, rfl⟩
  split
  · exact ⟨_, rfl⟩
  split
  · exact ⟨_, rfl⟩
  split
  · exact ⟨_, rfl⟩
  split
  · exact ⟨_, rfl⟩
  next hc => exact absurd ⟨hurl, hport⟩ hc

/-- Witness for C6 at a concrete target-less configuration. -/
theorem C6_witness : ∃ e, NewHeartbeat emptyTargetCfg = .error e :=
  C6_no_target_is_error emptyTargetCfg rfl rfl

/-- C7: a set (non-zero) `httpTimeout` that is not strictly less than
`heartbeatInterval` always fails construction with an error. -/
theorem C7_timeout_ge_interval_is_error (cfg : Config)
    (h1 : cfg.httpTimeout ≠ 0)
    (h2 : cfg.heartbeatInterval ≤ cfg.httpTimeout) :
    ∃ e, NewHeartbeat cfg = .error e := by
  unfold NewHeartbeat
  split
  · exact ⟨_, rfl⟩
  split
  · exact ⟨_, rfl⟩
  split
  · exact ⟨_, rfl⟩
  next hc => exact absurd ⟨h1, h2⟩ hc

/-- Witness for C7 at a concrete configuration with
`httpTimeout = heartbeatInterval`. -/
theorem C7_witness : ∃ e, NewHeartbeat badTimeoutCfg = .error e :=
  C7_timeout_ge_interval_is_error badTimeoutCfg (by decide) (by decide)

/-- C8: for a successfully constructed monitor, an unset (zero)
`httpTimeout` yields an effective client timeout of
`max(heartbeatInterval - 1s, 1s)`, and a set `httpTimeout` is used
as configured. -/
theorem C8_effective_timeout (cfg : Config) (h : heartbeat)
    (hok : NewHeartbeat cfg = .ok h) :
    (cfg.httpTimeout = 0 →
      h.clientTimeout =
        max (cfg.heartbeatInterval - timeSecond) timeSecond) ∧
    (cfg.httpTimeout ≠ 0 → h.clientTimeout = cfg.httpTimeout) := by
  obtain ⟨-, -, -, -, -, -, hct⟩ := newHeartbeat_fields cfg h hok
  constructor
  · intro h0
    rw [hct, if_pos h0]
    split
    · next hlt => exact (max_eq_right hlt.le).symm
    · next hge => exact (max_eq_left (not_lt.mp hge)).symm
  · intro hne
    rw [hct, if_neg hne]

/-- Witness for C8: the sample configuration leaves `httpTimeout` unset
and gets the default `max(5s - 1s, 1s) = 4s`. -/
theorem C8_witness :
    sampleMon.clientTimeout =
      max (sampleCfg.heartbeatInterval - timeSecond) timeSecond :=
  (C8_effective_timeout sampleCfg sampleMon rfl).1 rfl

/-- C9: `Start` is idempotent — every call after the first observes
`started = true` and is a no-op; a freshly constructed monitor started
twice has launched exactly one push schedule when a push URL is
configured (none otherwise) and at most one listener (exactly one when a
port is configured). -/
theorem C9_start_idempotent (s : heartbeat) (cfg : Config) (h : heartbeat)
    (hok : NewHeartbeat cfg = .ok h) :
    (Start s).started = true ∧
    Start (Start s) = Start s ∧
    (cfg.heartbeatURL ≠ "" → (Start (Start h)).pushSchedules = 1) ∧
    (cfg.heartbeatURL = "" → (Start (Start h)).pushSchedules = 0) ∧
    (Start (Start h)).listeners ≤ 1 ∧
    (cfg.port ≠ 0 → (Start (Start h)).listeners = 1) := by
  obtain ⟨hurl, hport, hst, hps, hls, -, -⟩ := newHeartbeat_fields cfg h hok
  have hid : Start (Start h) = Start h :=
    start_of_started (Start h) (start_started h)
  have hps1 : (Start h).pushSchedules =
      (if cfg.heartbeatURL = "" then 0 else 1) := by
    rw [start_pushSchedules h hst, hurl, hps]
  have hls1 : (Start h).listeners = (if cfg.port = 0 then 0 else 1) := by
    rw [start_listeners h hst, hport, hls]
  refine ⟨start_started s, start_of_started (Start s) (start_started s),
    ?_, ?_, ?_, ?_⟩
  · intro hu
    rw [hid, hps1, if_neg hu]
  · intro hu
    rw [hid, hps1, if_pos hu]
  · rw [hid, hls1]
    split <;> omega
  · intro hp
    rw [hid, hls1, if_neg hp]

/-- Witness for C9: starting the sample monitor twice yields exactly one
push schedule and one listener, and the second call changes nothing. -/
theorem C9_witness :
    (Start (Start sampleMon)).pushSchedules = 1 ∧
    (Start (Start sampleMon)).listeners = 1 ∧
    Start (Start sampleMon) = Start sampleMon := by
  have hmain := C9_start_idempotent sampleMon sampleCfg sampleMon rfl
  exact ⟨hmain.2.2.1 (by decide), hmain.2.2.2.2.2 (by decide), hmain.2.1⟩

end Heartbeat
